import Mathlib

/-
Verification development for the spatial-frequency-preferences repository
(sfp/model.py). The definitions below are a shallow embedding of the 2d
tuning-model code: the log-Gaussian donut model, the weighted normed loss,
the training loops with their stagnation rule and NaN/Inf skipping, and the
cross-validation train/test split. Machine floats are embedded as real
numbers; tensors appearing in the claims are embedded as lists of reals
(per-voxel rows), with torch broadcasting of one-dimensional tensors
modelled explicitly where a claim depends on it.
-/

open scoped Classical

noncomputable section

/-! ### List numerics used by the loss function (model.py lines 478-511) -/

/-- Sum of squares of a list, the square of its Euclidean norm. -/
def sumsq (v : List ℝ) : ℝ := (v.map (fun x => x ^ 2)).sum

/-- Euclidean norm of a list of reals: `tensor.norm(2, -1, True)` on a 1d row. -/
def l2norm (v : List ℝ) : ℝ := Real.sqrt (sumsq v)

/-- Mean of a list of reals: `tensor.mean(-1, True)` / `tensor.mean()` on a 1d row. -/
def lmean (v : List ℝ) : ℝ := v.sum / v.length

/-- The renorming guard at the top of `weighted_normed_loss`: if a prediction
row has Euclidean norm 0, every prediction is multiplied by 1e100
(`if 0 in predictions.norm(2, -1, True): predictions = predictions * 1e100`). -/
def rescale_small (predictions : List ℝ) : List ℝ :=
  if l2norm predictions = 0 then predictions.map (fun x => x * (10 : ℝ) ^ (100 : ℕ))
  else predictions

/-- Body of `weighted_normed_loss` after the guard and the default-argument
handling: normalize `predictions` by the norm of `predictions_for_norm`,
`target` by the norm of `target_for_norm`, multiply the squared difference by
the mean precision, and average. -/
def normed_loss_core (predictions target precision pfn tfn : List ℝ) : ℝ :=
  lmean (List.zipWith (fun a b => lmean precision * (a - b) ^ 2)
    (predictions.map (fun x => x / l2norm pfn))
    (target.map (fun x => x / l2norm tfn)))

/-- Source function `weighted_normed_loss(predictions, target, precision)` with the for-norm
arguments left at their defaults: after the guard rebinds `predictions`, the
defaults are `predictions_for_norm = predictions` (the rebound value) and
`target_for_norm = target`. -/
def weighted_normed_loss (predictions target precision : List ℝ) : ℝ :=
  normed_loss_core (rescale_small predictions) target precision
    (rescale_small predictions) target

/-- Source function `weighted_normed_loss` with the optional `predictions_for_norm` /
`target_for_norm` arguments made explicit. When only `target_for_norm` is
supplied the source trips its assert
(`assert target_for_norm is None, "Both target_for_norm and predictions_for_norm must be unset"`);
when only `predictions_for_norm` is supplied the assert is skipped but
`target_for_norm.norm(2, -1, True)` is evaluated on `None`, raising an
AttributeError; either way no loss value is returned. -/
def weighted_normed_loss_opt (predictions target precision : List ℝ)
    (predictions_for_norm target_for_norm : Option (List ℝ)) : Except String ℝ :=
  let p := rescale_small predictions
  match predictions_for_norm, target_for_norm with
  | none, none => .ok (normed_loss_core p target precision p target)
  | some pf, some tf => .ok (normed_loss_core p target precision pf tf)
  | none, some _ =>
      .error "AssertionError: Both target_for_norm and predictions_for_norm must be unset"
  | some _, none =>
      .error "AttributeError: NoneType object has no attribute norm"

/-- The loss computed for one gradient step of `train_model_traintest`
(model.py lines 584-586): train-class predictions/targets in the
squared-error positions, and the concatenation of held-out test and train
rows in the for-norm positions
(`weighted_normed_loss(predictions, target, precision,
torch.cat([test_predictions, predictions], 1), torch.cat([test_target, target], 1))`). -/
def traintest_step_loss (predictions target precision test_predictions test_target : List ℝ) : ℝ :=
  normed_loss_core (rescale_small predictions) target precision
    (test_predictions ++ predictions) (test_target ++ target)

/-! ### Basic lemmas about the list numerics -/

lemma sumsq_nonneg (v : List ℝ) : 0 ≤ sumsq v := by
  unfold sumsq
  induction v with
  | nil => simp
  | cons a l ih =>
      simp only [List.map_cons, List.sum_cons]
      have := sq_nonneg a
      nlinarith [ih]

lemma l2norm_nonneg (v : List ℝ) : 0 ≤ l2norm v := Real.sqrt_nonneg _

lemma sumsq_eq_zero_iff (v : List ℝ) : sumsq v = 0 ↔ ∀ x ∈ v, x = 0 := by
  unfold sumsq
  induction v with
  | nil => simp
  | cons a l ih =>
      simp only [List.map_cons, List.sum_cons, List.mem_cons]
      constructor
      · intro h
        have ha : 0 ≤ a ^ 2 := sq_nonneg a
        have hl : 0 ≤ (l.map (fun x => x ^ 2)).sum := sumsq_nonneg l
        have h1 : a ^ 2 = 0 := by nlinarith
        have h2 : (l.map (fun x => x ^ 2)).sum = 0 := by nlinarith
        refine fun x hx => hx.elim (fun hx => ?_) (fun hx => ih.mp h2 x hx)
        rw [hx]
        exact pow_eq_zero_iff (n := 2) (by norm_num) |>.mp h1
      · intro h
        have ha : a = 0 := h a (Or.inl rfl)
        have hl : (l.map (fun x => x ^ 2)).sum = 0 := ih.mpr (fun x hx => h x (Or.inr hx))
        rw [ha, hl]
        norm_num

lemma l2norm_eq_zero_iff (v : List ℝ) : l2norm v = 0 ↔ ∀ x ∈ v, x = 0 := by
  rw [l2norm, Real.sqrt_eq_zero (sumsq_nonneg v), sumsq_eq_zero_iff]

/-- Over the reals the rescale guard is the identity: a row whose norm is 0 is
identically 0, and rescaling zeros gives back zeros. -/
lemma rescale_small_eq_self (v : List ℝ) : rescale_small v = v := by
  unfold rescale_small
  split_ifs with h
  · have hz := (l2norm_eq_zero_iff v).mp h
    calc v.map (fun x => x * (10 : ℝ) ^ (100 : ℕ))
        = v.map id := List.map_congr_left (fun x hx => by rw [hz x hx]; simp)
      _ = v := List.map_id v
  · rfl

lemma sumsq_append (a b : List ℝ) : sumsq (a ++ b) = sumsq a + sumsq b := by
  unfold sumsq
  rw [List.map_append, List.sum_append]

lemma sumsq_eq_sq_l2norm (v : List ℝ) : sumsq v = l2norm v ^ 2 := by
  rw [l2norm, Real.sq_sqrt (sumsq_nonneg v)]

lemma lmean_nonneg (v : List ℝ) (h : ∀ x ∈ v, 0 ≤ x) : 0 ≤ lmean v := by
  unfold lmean
  exact div_nonneg (List.sum_nonneg h) (Nat.cast_nonneg _)

lemma mem_zipWith_nonneg (f : ℝ → ℝ → ℝ) (hf : ∀ a b, 0 ≤ f a b) :
    ∀ (u v : List ℝ), ∀ x ∈ List.zipWith f u v, 0 ≤ x := by
  intro u
  induction u with
  | nil => intro v x hx; simp at hx
  | cons a l ih =>
      intro v x hx
      cases v with
      | nil => simp at hx
      | cons b m =>
          simp only [List.zipWith_cons_cons, List.mem_cons] at hx
          rcases hx with hx | hx
          · rw [hx]; exact hf a b
          · exact ih m x hx

/-! ### Claim theorems about the loss function -/

/-- Claim C9: the loss at target equal to predictions is zero:
`weighted_normed_loss(predictions, predictions, precision) == 0` for every
predictions row and every precision row. -/
theorem weighted_normed_loss_self_eq_zero (predictions precision : List ℝ) :
    weighted_normed_loss predictions predictions precision = 0 := by
  unfold weighted_normed_loss normed_loss_core
  rw [rescale_small_eq_self]
  have hz : List.zipWith (fun a b => lmean precision * (a - b) ^ 2)
      (predictions.map (fun x => x / l2norm predictions))
      (predictions.map (fun x => x / l2norm predictions)) =
      (predictions.map (fun x => x / l2norm predictions)).map (fun _ => (0 : ℝ)) := by
    rw [List.zipWith_same]
    exact List.map_congr_left (fun x _ => by ring)
  rw [hz]
  unfold lmean
  rw [List.map_const', List.sum_replicate, smul_zero, zero_div]

/-- Claim C2: with the for-norm arguments at their defaults,
`weighted_normed_loss` is invariant to uniform positive rescaling of the
predictions, and (for nonnegative precisions, the data-model invariant) the
returned loss is nonnegative. -/
theorem weighted_normed_loss_scale_invariant (k : ℝ) (predictions target precision : List ℝ)
    (hk : 0 < k) :
    weighted_normed_loss (predictions.map (fun x => k * x)) target precision =
      weighted_normed_loss predictions target precision ∧
    ((∀ x ∈ precision, 0 ≤ x) → 0 ≤ weighted_normed_loss predictions target precision) := by
  constructor
  · unfold weighted_normed_loss
    rw [rescale_small_eq_self, rescale_small_eq_self]
    unfold normed_loss_core
    have hnorm : l2norm (predictions.map (fun x => k * x)) = k * l2norm predictions := by
      unfold l2norm sumsq
      rw [List.map_map]
      have : (fun x => x ^ 2) ∘ (fun x => k * x) = fun x => k ^ 2 * x ^ 2 := by
        funext x; simp [mul_pow]
      rw [this]
      have hsum : (predictions.map (fun x => k ^ 2 * x ^ 2)).sum =
          k ^ 2 * (predictions.map (fun x => x ^ 2)).sum := by
        induction predictions with
        | nil => simp
        | cons a l ih => simp [ih]; ring
      rw [hsum, Real.sqrt_mul (sq_nonneg k), Real.sqrt_sq_eq_abs, abs_of_pos hk]
    have hmap : (predictions.map (fun x => k * x)).map
        (fun x => x / l2norm (predictions.map (fun x => k * x))) =
        predictions.map (fun x => x / l2norm predictions) := by
      rw [hnorm, List.map_map]
      exact List.map_congr_left
        (fun x _ => mul_div_mul_left x (l2norm predictions) (ne_of_gt hk))
    rw [hmap]
  · intro hp
    unfold weighted_normed_loss normed_loss_core
    refine lmean_nonneg _ ?_
    exact mem_zipWith_nonneg _
      (fun a b => mul_nonneg (lmean_nonneg precision hp) (sq_nonneg _)) _ _

/-- Witness for C2 at concrete inputs: rescaling the prediction row `[3, 4]`
by `k = 2` leaves the loss unchanged, and the loss is nonnegative. -/
theorem weighted_normed_loss_scale_invariant_w :
    weighted_normed_loss ([(3 : ℝ), 4].map (fun x => 2 * x)) [1, 0] [1, 1] =
      weighted_normed_loss [(3 : ℝ), 4] [1, 0] [1, 1] ∧
    0 ≤ weighted_normed_loss [(3 : ℝ), 4] [1, 0] [1, 1] := by
  have h := weighted_normed_loss_scale_invariant 2 [(3 : ℝ), 4] [1, 0] [1, 1] (by norm_num)
  exact ⟨h.1, h.2 (by intro x hx; have hx1 : x = 1 := (by simpa using hx); linarith)⟩

/-- Claim C10: supplying exactly one of `predictions_for_norm` /
`target_for_norm` always raises (assert failure in one direction, attribute
error on `None` in the other) and never returns a loss value. -/
theorem weighted_normed_loss_opt_mixed_args_error
    (predictions target precision x : List ℝ) :
    weighted_normed_loss_opt predictions target precision (some x) none =
      .error "AttributeError: NoneType object has no attribute norm" ∧
    weighted_normed_loss_opt predictions target precision none (some x) =
      .error "AssertionError: Both target_for_norm and predictions_for_norm must be unset" := by
  exact ⟨rfl, rfl⟩

/-- zipWith of two mapped lists, as one zipWith. -/
lemma zipWith_map_map (f : ℝ → ℝ → ℝ) (g h : ℝ → ℝ) (l l' : List ℝ) :
    List.zipWith f (l.map g) (l'.map h) = List.zipWith (fun a b => f (g a) (h b)) l l' := by
  induction l generalizing l' with
  | nil => simp
  | cons a t ih =>
      cases l' with
      | nil => simp
      | cons b t' => simp [ih]

/-- Claim C3: the loss of a cross-validation gradient step has its squared
error computed only over the train-class entries, while the normalizers are
the norms of the concatenated test-and-train rows; the held-out rows enter
only through those two norms, so replacing them by any rows of equal norm
leaves the training loss unchanged (held-out residuals never appear). -/
theorem traintest_step_loss_structure (ptr ttr prec pte tte : List ℝ) :
    traintest_step_loss ptr ttr prec pte tte =
      lmean (List.zipWith (fun a b =>
        lmean prec * (a / l2norm (pte ++ ptr) - b / l2norm (tte ++ ttr)) ^ 2) ptr ttr) ∧
    ∀ pte' tte', l2norm pte' = l2norm pte → l2norm tte' = l2norm tte →
      traintest_step_loss ptr ttr prec pte' tte' = traintest_step_loss ptr ttr prec pte tte := by
  have key : ∀ pe te : List ℝ, traintest_step_loss ptr ttr prec pe te =
      lmean (List.zipWith (fun a b =>
        lmean prec * (a / l2norm (pe ++ ptr) - b / l2norm (te ++ ttr)) ^ 2) ptr ttr) := by
    intro pe te
    unfold traintest_step_loss normed_loss_core
    rw [rescale_small_eq_self, zipWith_map_map]
  refine ⟨key pte tte, fun pte' tte' h1 h2 => ?_⟩
  have hn1 : l2norm (pte' ++ ptr) = l2norm (pte ++ ptr) := by
    unfold l2norm
    rw [sumsq_append, sumsq_append, sumsq_eq_sq_l2norm pte', sumsq_eq_sq_l2norm pte, h1]
  have hn2 : l2norm (tte' ++ ttr) = l2norm (tte ++ ttr) := by
    unfold l2norm
    rw [sumsq_append, sumsq_append, sumsq_eq_sq_l2norm tte', sumsq_eq_sq_l2norm tte, h2]
  rw [key pte' tte', key pte tte, hn1, hn2]

/-- Witness for C3 at concrete inputs: replacing the held-out row `[2]` by
`[-2]` (same norm) leaves the gradient-step loss unchanged. -/
theorem traintest_step_loss_structure_w :
    traintest_step_loss [(1 : ℝ)] [1] [1] [-2] [0] =
      traintest_step_loss [(1 : ℝ)] [1] [1] [2] [0] := by
  refine (traintest_step_loss_structure [(1 : ℝ)] [1] [1] [2] [0]).2 [-2] [0] ?_ rfl
  unfold l2norm sumsq
  norm_num

/-! ### The LogGaussianDonut model (model.py lines 143-345) -/

/-- The eleven scalar parameters of a `LogGaussianDonut` (model.py lines
242-263). -/
structure LogGaussianDonut where
  sigma : ℝ
  sf_ecc_slope : ℝ
  sf_ecc_intercept : ℝ
  abs_mode_cardinals : ℝ
  abs_mode_obliques : ℝ
  rel_mode_cardinals : ℝ
  rel_mode_obliques : ℝ
  abs_amplitude_cardinals : ℝ
  abs_amplitude_obliques : ℝ
  rel_amplitude_cardinals : ℝ
  rel_amplitude_obliques : ℝ

/-- Source method `LogGaussianDonut.preferred_period` (model.py lines 291-311) at scalar
inputs: eccentricity effect times orientation effect, clamped below at 1e-6. -/
def preferred_period (M : LogGaussianDonut) (sf_angle vox_ecc vox_angle : ℝ) : ℝ :=
  let rel_sf_angle := sf_angle - vox_angle
  let eccentricity_effect := M.sf_ecc_slope * vox_ecc + M.sf_ecc_intercept
  let orientation_effect := 1 + M.abs_mode_cardinals * Real.cos (2 * sf_angle) +
    M.abs_mode_obliques * Real.cos (4 * sf_angle) +
    M.rel_mode_cardinals * Real.cos (2 * rel_sf_angle) +
    M.rel_mode_obliques * Real.cos (4 * rel_sf_angle)
  max (eccentricity_effect * orientation_effect) (1 / 1000000)

/-- Source method `LogGaussianDonut.max_amplitude` (model.py lines 316-324) at scalar
inputs. -/
def max_amplitude (M : LogGaussianDonut) (sf_angle vox_angle : ℝ) : ℝ :=
  let rel_sf_angle := sf_angle - vox_angle
  let amplitude := 1 + M.abs_amplitude_cardinals * Real.cos (2 * sf_angle) +
    M.abs_amplitude_obliques * Real.cos (4 * sf_angle) +
    M.rel_amplitude_cardinals * Real.cos (2 * rel_sf_angle) +
    M.rel_amplitude_obliques * Real.cos (4 * rel_sf_angle)
  max amplitude (1 / 1000000)

/-- Source method `LogGaussianDonut.evaluate` (model.py lines 326-335) at scalar inputs:
amplitude times the log-Gaussian pdf in log2 spatial frequency. -/
def evaluate (M : LogGaussianDonut) (sf_mag sf_angle vox_ecc vox_angle : ℝ) : ℝ :=
  max_amplitude M sf_angle vox_angle *
    Real.exp (-(Real.logb 2 sf_mag + Real.logb 2 (preferred_period M sf_angle vox_ecc vox_angle)) ^ 2 /
      (2 * M.sigma ^ 2))

/-- Claim C1: for every parameter set and inputs with positive spatial
frequency magnitude, `evaluate` returns
`amplitude * exp(-(log2(sf_magnitude) + log2(preferred_period))^2 / (2*sigma^2))`
with `preferred_period` and `amplitude` given by the clamped closed forms of
the specification. -/
theorem evaluate_matches_spec (M : LogGaussianDonut) (sf_mag sf_angle vox_ecc vox_angle : ℝ)
    (hm : 0 < sf_mag) :
    evaluate M sf_mag sf_angle vox_ecc vox_angle =
      max (1 + M.abs_amplitude_cardinals * Real.cos (2 * sf_angle) +
          M.abs_amplitude_obliques * Real.cos (4 * sf_angle) +
          M.rel_amplitude_cardinals * Real.cos (2 * (sf_angle - vox_angle)) +
          M.rel_amplitude_obliques * Real.cos (4 * (sf_angle - vox_angle))) (1 / 1000000) *
        Real.exp (-(Real.logb 2 sf_mag +
          Real.logb 2 (max ((M.sf_ecc_slope * vox_ecc + M.sf_ecc_intercept) *
            (1 + M.abs_mode_cardinals * Real.cos (2 * sf_angle) +
             M.abs_mode_obliques * Real.cos (4 * sf_angle) +
             M.rel_mode_cardinals * Real.cos (2 * (sf_angle - vox_angle)) +
             M.rel_mode_obliques * Real.cos (4 * (sf_angle - vox_angle)))) (1 / 1000000))) ^ 2 /
          (2 * M.sigma ^ 2)) := rfl

/-- An isotropic scaling parameter set used for concrete instantiations:
sigma 1, slope 1, every other parameter 0. -/
def M0 : LogGaussianDonut :=
  ⟨1, 1, 0, 0, 0, 0, 0, 0, 0, 0, 0⟩

/-- Witness for C1 at `M0` and `sf_mag = 1`. -/
theorem evaluate_matches_spec_w :
    (0 : ℝ) < 1 ∧
    evaluate M0 1 0 1 0 =
      max (1 + M0.abs_amplitude_cardinals * Real.cos (2 * 0) +
          M0.abs_amplitude_obliques * Real.cos (4 * 0) +
          M0.rel_amplitude_cardinals * Real.cos (2 * (0 - 0)) +
          M0.rel_amplitude_obliques * Real.cos (4 * (0 - 0))) (1 / 1000000) *
        Real.exp (-(Real.logb 2 1 +
          Real.logb 2 (max ((M0.sf_ecc_slope * 1 + M0.sf_ecc_intercept) *
            (1 + M0.abs_mode_cardinals * Real.cos (2 * 0) +
             M0.abs_mode_obliques * Real.cos (4 * 0) +
             M0.rel_mode_cardinals * Real.cos (2 * (0 - 0)) +
             M0.rel_mode_obliques * Real.cos (4 * (0 - 0)))) (1 / 1000000))) ^ 2 /
          (2 * M0.sigma ^ 2)) :=
  ⟨by norm_num, evaluate_matches_spec M0 1 0 1 0 (by norm_num)⟩

/-! ### The train_model epoch loop and its stagnation rule (model.py lines 525-557) -/

/-- The stopping condition checked after epoch `t` (0-indexed) of
`train_model`: the history holds more than three epoch means
(`len(loss_history) > 3`, i.e. `3 ≤ t`) and the three most recent consecutive
differences of epoch-mean losses are all below `train_thresh`. `m t` is the
mean batch loss of epoch `t`. -/
def loss_stagnated (m : ℕ → ℝ) (train_thresh : ℝ) (t : ℕ) : Prop :=
  3 ≤ t ∧ |m t - m (t - 1)| < train_thresh ∧ |m (t - 1) - m (t - 2)| < train_thresh ∧
    |m (t - 2) - m (t - 3)| < train_thresh

/-- The epoch loop of `train_model`, abstracted over the sequence of epoch
mean losses: starting with `t` epochs already run and `fuel` epochs still
allowed by `range(max_epochs)`, run an epoch, check `loss_stagnated`, and
either break or continue. Returns the number of epochs run. -/
def train_model_epochs_aux (m : ℕ → ℝ) (train_thresh : ℝ) : ℕ → ℕ → ℕ
  | 0, t => t
  | fuel + 1, t =>
      if loss_stagnated m train_thresh t then t + 1
      else train_model_epochs_aux m train_thresh fuel (t + 1)

/-- Number of epochs run by `train_model(max_epochs, train_thresh)` when epoch
`t` has mean batch loss `m t`. -/
def train_model_epochs (m : ℕ → ℝ) (train_thresh : ℝ) (max_epochs : ℕ) : ℕ :=
  train_model_epochs_aux m train_thresh max_epochs 0

lemma train_model_epochs_aux_succ (m : ℕ → ℝ) (th : ℝ) (fuel t : ℕ) :
    train_model_epochs_aux m th (fuel + 1) t =
      if loss_stagnated m th t then t + 1 else train_model_epochs_aux m th fuel (t + 1) := rfl

lemma not_stagnated_of_lt (m : ℕ → ℝ) (th : ℝ) (t : ℕ) (h : t < 3) :
    ¬ loss_stagnated m th t := fun hs => absurd hs.1 (by omega)

/-- Claim C4: with `train_thresh = 1e10` and every consecutive difference of
epoch-mean losses below that threshold (any finite difference, in the float
reading), `train_model` stops after exactly 4 epochs whenever
`max_epochs ≥ 4`: the stagnation check first passes when 4 epoch means
exist. -/
theorem train_model_stops_after_four (m : ℕ → ℝ) (max_epochs : ℕ)
    (hme : 4 ≤ max_epochs) (h : ∀ i, |m (i + 1) - m i| < (10 : ℝ) ^ (10 : ℕ)) :
    train_model_epochs m ((10 : ℝ) ^ (10 : ℕ)) max_epochs = 4 := by
  obtain ⟨k, rfl⟩ : ∃ k, max_epochs = k + 4 := ⟨max_epochs - 4, by omega⟩
  show train_model_epochs_aux m ((10 : ℝ) ^ (10 : ℕ)) (k + 4) 0 = 4
  have e0 : k + 4 = (k + 3) + 1 := rfl
  rw [e0, train_model_epochs_aux_succ, if_neg (not_stagnated_of_lt _ _ 0 (by omega))]
  have e1 : k + 3 = (k + 2) + 1 := rfl
  rw [e1, train_model_epochs_aux_succ, if_neg (not_stagnated_of_lt _ _ 1 (by omega))]
  have e2 : k + 2 = (k + 1) + 1 := rfl
  rw [e2, train_model_epochs_aux_succ, if_neg (not_stagnated_of_lt _ _ 2 (by omega))]
  rw [train_model_epochs_aux_succ, if_pos]
  refine ⟨by omega, ?_, ?_, ?_⟩
  · have := h 2
    norm_num at this ⊢
    exact this
  · have := h 1
    norm_num at this ⊢
    exact this
  · have := h 0
    norm_num at this ⊢
    exact this

/-- Witness for C4: a constant loss sequence with `max_epochs = 100` trains
for exactly 4 epochs. -/
theorem train_model_stops_after_four_w :
    train_model_epochs (fun _ => 0) ((10 : ℝ) ^ (10 : ℕ)) 100 = 4 :=
  train_model_stops_after_four (fun _ => 0) 100 (by norm_num)
    (fun i => by rw [sub_self, abs_zero]; positivity)

/-! ### Per-batch NaN/Inf handling in the training loop (model.py lines 527-541) -/

/-- A float batch-loss value: finite, NaN, or infinite. -/
inductive LossVal
  | finite (x : ℝ) : LossVal
  | nan : LossVal
  | inf : LossVal

/-- The check `np.isnan(loss.item()) or np.isinf(loss.item())`. -/
def LossVal.isBad : LossVal → Bool
  | .finite _ => false
  | .nan => true
  | .inf => true

/-- The state carried through the batch loop: the model parameters and the
per-batch loss history of the current epoch. -/
structure BatchTrainState (P : Type) where
  params : P
  loss_history : List LossVal

/-- One iteration of the batch loop of `train_model`: compute the loss, append
it to the loss history, and then either skip the optimizer step (when the loss
is NaN or infinite) or apply it. `batch_loss` abstracts the forward pass plus
`weighted_normed_loss`; `opt_step` abstracts
`optimizer.zero_grad(); loss.backward(); optimizer.step()`. -/
def run_batch {P B : Type} (batch_loss : P → B → LossVal) (opt_step : P → B → P)
    (s : BatchTrainState P) (b : B) : BatchTrainState P :=
  let l := batch_loss s.params b
  let s1 : BatchTrainState P := ⟨s.params, s.loss_history ++ [l]⟩
  if l.isBad then s1 else ⟨opt_step s1.params b, s1.loss_history⟩

/-- One epoch of the batch loop: fold `run_batch` over the batches. -/
def run_epoch {P B : Type} (batch_loss : P → B → LossVal) (opt_step : P → B → P)
    (s : BatchTrainState P) (bs : List B) : BatchTrainState P :=
  bs.foldl (run_batch batch_loss opt_step) s

/-- Claim C6: a batch whose loss is NaN or infinite still records that loss in
the loss history, changes no model parameter, and the loop proceeds with the
remaining batches; the bad batch is never fatal. -/
theorem nan_inf_batch_skips_step {P B : Type} (batch_loss : P → B → LossVal)
    (opt_step : P → B → P) (s : BatchTrainState P) (b : B) (bs : List B)
    (h : (batch_loss s.params b).isBad = true) :
    (run_batch batch_loss opt_step s b).params = s.params ∧
    (run_batch batch_loss opt_step s b).loss_history =
      s.loss_history ++ [batch_loss s.params b] ∧
    run_epoch batch_loss opt_step s (b :: bs) =
      run_epoch batch_loss opt_step (run_batch batch_loss opt_step s b) bs := by
  refine ⟨?_, ?_, rfl⟩ <;> simp [run_batch, h]

/-- Witness for C6: a concrete two-batch epoch whose first loss is NaN leaves
the integer parameter at 0 after the first batch and records the NaN. -/
theorem nan_inf_batch_skips_step_w :
    (run_batch (fun (_ : ℤ) (_ : Unit) => LossVal.nan) (fun p _ => p + 1)
        ⟨0, []⟩ ()).params = (0 : ℤ) ∧
    (run_batch (fun (_ : ℤ) (_ : Unit) => LossVal.nan) (fun p _ => p + 1)
        ⟨0, []⟩ ()).loss_history = [] ++ [LossVal.nan] ∧
    run_epoch (fun (_ : ℤ) (_ : Unit) => LossVal.nan) (fun p _ => p + 1) ⟨0, []⟩ [(), ()] =
      run_epoch (fun (_ : ℤ) (_ : Unit) => LossVal.nan) (fun p _ => p + 1)
        (run_batch (fun (_ : ℤ) (_ : Unit) => LossVal.nan) (fun p _ => p + 1) ⟨0, []⟩ ()) [()] :=
  nan_inf_batch_skips_step (fun (_ : ℤ) (_ : Unit) => LossVal.nan) (fun p _ => p + 1)
    ⟨0, []⟩ () [()] rfl

/-! ### LogGaussianDonut construction (model.py lines 180-263) -/

/-- The ten structurally-constrainable parameters of the donut (`sigma` is
always trainable and never corrected). -/
inductive DonutParam
  | abs_mode_cardinals
  | abs_mode_obliques
  | abs_amplitude_cardinals
  | abs_amplitude_obliques
  | rel_mode_cardinals
  | rel_mode_obliques
  | rel_amplitude_cardinals
  | rel_amplitude_obliques
  | sf_ecc_slope
  | sf_ecc_intercept
deriving DecidableEq

/-- The `orientation_type` argument of the constructor. -/
inductive OrientationType
  | iso
  | absolute
  | relative
  | full
deriving DecidableEq

/-- The `eccentricity_type` argument of the constructor. -/
inductive EccentricityType
  | scaling
  | constant
  | full
deriving DecidableEq

/-- The constructor state: current parameter values (`kwargs`), trainable
flags (`train_kwargs`), and the parameters for which `warnings.warn` has been
called, in order. -/
structure InitState where
  vals : DonutParam → ℝ
  trainable : DonutParam → Bool
  warned : List DonutParam

/-- One correction step of the constructor for a structurally-disabled
parameter `p`: warn if its current value is nonzero, set the value to 0, and
clear its trainable flag. -/
def correct_param (p : DonutParam) (s : InitState) : InitState :=
  { vals := fun q => if q = p then 0 else s.vals q
    trainable := fun q => if q = p then false else s.trainable q
    warned := s.warned ++ (if s.vals p = 0 then [] else [p]) }

/-- Fold `correct_param` over a list of parameters, in source loop order. -/
def correct_all (ps : List DonutParam) (s : InitState) : InitState :=
  ps.foldl (fun s p => correct_param p s) s

/-- The body of `LogGaussianDonut.__init__` on the ten constrainable
parameters: zero-and-disable the absolute parameters for relative/iso models,
the relative parameters for absolute/iso models, the amplitude parameters
when `vary_amplitude` is false, and the disabled one of
slope/intercept for scaling/constant eccentricity types, warning whenever a
nonzero value is corrected. The construction is total: invalid initial values
are corrected, never raised on. -/
def donut_init (ot : OrientationType) (et : EccentricityType) (vary_amplitude : Bool)
    (init : DonutParam → ℝ) : InitState :=
  let s0 : InitState := ⟨init, fun _ => true, []⟩
  let s1 := if ot = .relative ∨ ot = .iso then
      correct_all [.abs_mode_cardinals, .abs_mode_obliques,
        .abs_amplitude_cardinals, .abs_amplitude_obliques] s0
    else s0
  let s2 := if ot = .absolute ∨ ot = .iso then
      correct_all [.rel_mode_cardinals, .rel_mode_obliques,
        .rel_amplitude_cardinals, .rel_amplitude_obliques] s1
    else s1
  let s3 := if vary_amplitude then s2
    else correct_all [.abs_amplitude_cardinals, .abs_amplitude_obliques,
      .rel_amplitude_cardinals, .rel_amplitude_obliques] s2
  match et with
  | .scaling => correct_param .sf_ecc_intercept s3
  | .constant => correct_param .sf_ecc_slope s3
  | .full => s3

lemma correct_param_vals_self (p : DonutParam) (s : InitState) :
    (correct_param p s).vals p = 0 := by simp [correct_param]

lemma correct_param_vals_other (p q : DonutParam) (s : InitState) (h : q ≠ p) :
    (correct_param p s).vals q = s.vals q := by simp [correct_param, h]

lemma correct_param_trainable_self (p : DonutParam) (s : InitState) :
    (correct_param p s).trainable p = false := by simp [correct_param]

lemma correct_param_trainable_other (p q : DonutParam) (s : InitState) (h : q ≠ p) :
    (correct_param p s).trainable q = s.trainable q := by simp [correct_param, h]

lemma correct_param_warned_mono (p a : DonutParam) (s : InitState) (h : a ∈ s.warned) :
    a ∈ (correct_param p s).warned := by
  simp only [correct_param]
  exact List.mem_append_left _ h

lemma correct_param_warned_self (p : DonutParam) (s : InitState) (h : s.vals p ≠ 0) :
    p ∈ (correct_param p s).warned := by
  simp only [correct_param, if_neg h]
  exact List.mem_append_right _ (List.mem_singleton_self p)

lemma correct_all_warned_mono (ps : List DonutParam) (a : DonutParam) (s : InitState)
    (h : a ∈ s.warned) : a ∈ (correct_all ps s).warned := by
  induction ps generalizing s with
  | nil => exact h
  | cons p rest ih => exact ih (correct_param p s) (correct_param_warned_mono p a s h)

lemma correct_all_vals (ps : List DonutParam) (q : DonutParam) (s : InitState) :
    (correct_all ps s).vals q = if q ∈ ps then 0 else s.vals q := by
  induction ps generalizing s with
  | nil => simp [correct_all]
  | cons p rest ih =>
      show (correct_all rest (correct_param p s)).vals q = _
      rw [ih]
      by_cases hq : q ∈ rest
      · simp [hq, List.mem_cons]
      · by_cases hp : q = p
        · subst hp
          simp [hq, correct_param_vals_self]
        · simp [hq, hp, correct_param_vals_other p q s hp, List.mem_cons]

lemma correct_all_trainable (ps : List DonutParam) (q : DonutParam) (s : InitState) :
    (correct_all ps s).trainable q = if q ∈ ps then false else s.trainable q := by
  induction ps generalizing s with
  | nil => simp [correct_all]
  | cons p rest ih =>
      show (correct_all rest (correct_param p s)).trainable q = _
      rw [ih]
      by_cases hq : q ∈ rest
      · simp [hq, List.mem_cons]
      · by_cases hp : q = p
        · subst hp
          simp [hq, correct_param_trainable_self]
        · simp [hq, hp, correct_param_trainable_other p q s hp, List.mem_cons]

/-- Claim C5: constructing a donut with `orientation_type iso` always
succeeds (the construction is total), and any nonzero initial
`abs_mode_cardinals` / `rel_mode_cardinals` is stored as exactly 0 with its
trainable flag false and a warning issued for it. -/
theorem iso_zeroes_disabled_params (et : EccentricityType) (va : Bool)
    (init : DonutParam → ℝ) (ha : init .abs_mode_cardinals ≠ 0)
    (hr : init .rel_mode_cardinals ≠ 0) :
    (donut_init .iso et va init).vals .abs_mode_cardinals = 0 ∧
    (donut_init .iso et va init).trainable .abs_mode_cardinals = false ∧
    (donut_init .iso et va init).vals .rel_mode_cardinals = 0 ∧
    (donut_init .iso et va init).trainable .rel_mode_cardinals = false ∧
    DonutParam.abs_mode_cardinals ∈ (donut_init .iso et va init).warned ∧
    DonutParam.rel_mode_cardinals ∈ (donut_init .iso et va init).warned := by
  unfold donut_init
  simp only [show (OrientationType.iso = OrientationType.relative ∨
    OrientationType.iso = OrientationType.iso) = True by simp,
    show (OrientationType.iso = OrientationType.absolute ∨
    OrientationType.iso = OrientationType.iso) = True by simp, if_true]
  set s0 : InitState := ⟨init, fun _ => true, []⟩ with hs0
  set L1 : List DonutParam := [.abs_mode_cardinals, .abs_mode_obliques,
    .abs_amplitude_cardinals, .abs_amplitude_obliques] with hL1
  set L2 : List DonutParam := [.rel_mode_cardinals, .rel_mode_obliques,
    .rel_amplitude_cardinals, .rel_amplitude_obliques] with hL2
  set LA : List DonutParam := [.abs_amplitude_cardinals, .abs_amplitude_obliques,
    .rel_amplitude_cardinals, .rel_amplitude_obliques] with hLA
  set s1 := correct_all L1 s0 with hs1
  set s2 := correct_all L2 s1 with hs2
  set s3 := (if va then s2 else correct_all LA s2) with hs3
  -- values and flags after the two orientation loops
  have hv1a : s1.vals .abs_mode_cardinals = 0 := by
    rw [hs1, correct_all_vals]; simp [hL1]
  have ht1a : s1.trainable .abs_mode_cardinals = false := by
    rw [hs1, correct_all_trainable]; simp [hL1]
  have hv2a : s2.vals .abs_mode_cardinals = 0 := by
    rw [hs2, correct_all_vals]; simp [hL2, hv1a]
  have ht2a : s2.trainable .abs_mode_cardinals = false := by
    rw [hs2, correct_all_trainable]; simp [hL2, ht1a]
  have hv2r : s2.vals .rel_mode_cardinals = 0 := by
    rw [hs2, correct_all_vals]; simp [hL2]
  have ht2r : s2.trainable .rel_mode_cardinals = false := by
    rw [hs2, correct_all_trainable]; simp [hL2]
  have hv3a : s3.vals .abs_mode_cardinals = 0 := by
    rw [hs3]
    split_ifs with hva
    · exact hv2a
    · rw [correct_all_vals]; simp [hLA, hv2a]
  have ht3a : s3.trainable .abs_mode_cardinals = false := by
    rw [hs3]
    split_ifs with hva
    · exact ht2a
    · rw [correct_all_trainable]; simp [hLA, ht2a]
  have hv3r : s3.vals .rel_mode_cardinals = 0 := by
    rw [hs3]
    split_ifs with hva
    · exact hv2r
    · rw [correct_all_vals]; simp [hLA, hv2r]
  have ht3r : s3.trainable .rel_mode_cardinals = false := by
    rw [hs3]
    split_ifs with hva
    · exact ht2r
    · rw [correct_all_trainable]; simp [hLA, ht2r]
  -- warnings: abs_mode_cardinals is warned in the first loop, rel_mode_cardinals
  -- in the second (its value is untouched by the first loop)
  have hw1a : DonutParam.abs_mode_cardinals ∈ s1.warned := by
    rw [hs1]
    show DonutParam.abs_mode_cardinals ∈ (correct_all [DonutParam.abs_mode_obliques,
      .abs_amplitude_cardinals, .abs_amplitude_obliques]
      (correct_param .abs_mode_cardinals s0)).warned
    exact correct_all_warned_mono _ _ _ (correct_param_warned_self _ s0 ha)
  have hv1r : s1.vals .rel_mode_cardinals = init .rel_mode_cardinals := by
    rw [hs1, correct_all_vals]; simp [hL1, hs0]
  have hw2a : DonutParam.abs_mode_cardinals ∈ s2.warned := by
    rw [hs2]
    exact correct_all_warned_mono _ _ _ hw1a
  have hw2r : DonutParam.rel_mode_cardinals ∈ s2.warned := by
    rw [hs2]
    show DonutParam.rel_mode_cardinals ∈ (correct_all [DonutParam.rel_mode_obliques,
      .rel_amplitude_cardinals, .rel_amplitude_obliques]
      (correct_param .rel_mode_cardinals s1)).warned
    refine correct_all_warned_mono _ _ _ (correct_param_warned_self _ s1 ?_)
    rw [hv1r]
    exact hr
  have hw3a : DonutParam.abs_mode_cardinals ∈ s3.warned := by
    rw [hs3]
    split_ifs with hva
    · exact hw2a
    · exact correct_all_warned_mono _ _ _ hw2a
  have hw3r : DonutParam.rel_mode_cardinals ∈ s3.warned := by
    rw [hs3]
    split_ifs with hva
    · exact hw2r
    · exact correct_all_warned_mono _ _ _ hw2r
  -- the eccentricity branch only touches slope/intercept
  cases et with
  | scaling =>
      refine ⟨?_, ?_, ?_, ?_, ?_, ?_⟩
      · rw [correct_param_vals_other _ _ _ (by simp)]; exact hv3a
      · rw [correct_param_trainable_other _ _ _ (by simp)]; exact ht3a
      · rw [correct_param_vals_other _ _ _ (by simp)]; exact hv3r
      · rw [correct_param_trainable_other _ _ _ (by simp)]; exact ht3r
      · exact correct_param_warned_mono _ _ _ hw3a
      · exact correct_param_warned_mono _ _ _ hw3r
  | constant =>
      refine ⟨?_, ?_, ?_, ?_, ?_, ?_⟩
      · rw [correct_param_vals_other _ _ _ (by simp)]; exact hv3a
      · rw [correct_param_trainable_other _ _ _ (by simp)]; exact ht3a
      · rw [correct_param_vals_other _ _ _ (by simp)]; exact hv3r
      · rw [correct_param_trainable_other _ _ _ (by simp)]; exact ht3r
      · exact correct_param_warned_mono _ _ _ hw3a
      · exact correct_param_warned_mono _ _ _ hw3r
  | full => exact ⟨hv3a, ht3a, hv3r, ht3r, hw3a, hw3r⟩

/-- Witness for C5: an iso model initialized with every parameter 1 stores 0
for both mode cardinal parameters, with flags cleared and warnings issued. -/
theorem iso_zeroes_disabled_params_w :
    (donut_init .iso .full true (fun _ => 1)).vals .abs_mode_cardinals = 0 ∧
    (donut_init .iso .full true (fun _ => 1)).trainable .abs_mode_cardinals = false ∧
    (donut_init .iso .full true (fun _ => 1)).vals .rel_mode_cardinals = 0 ∧
    (donut_init .iso .full true (fun _ => 1)).trainable .rel_mode_cardinals = false ∧
    DonutParam.abs_mode_cardinals ∈ (donut_init .iso .full true (fun _ => 1)).warned ∧
    DonutParam.rel_mode_cardinals ∈ (donut_init .iso .full true (fun _ => 1)).warned :=
  iso_zeroes_disabled_params .full true (fun _ => 1) (by norm_num) (by norm_num)

/-! ### preferred_period on one-dimensional tensors (model.py lines 291-311) -/

/-- The usage-error message raised by `preferred_period`. -/
def shape_err_msg : String := "Only two of these variables can be non-singletons!"

/-- The torch error when two 1d tensors cannot broadcast. -/
def broadcast_err_msg : String := "The size of tensor a must match the size of tensor b"

/-- A binary elementwise operation on two 1d tensors with torch broadcasting:
equal lengths act elementwise, a length-1 tensor broadcasts against the
other, and everything else is a runtime broadcast error. -/
def bc2 (f : ℝ → ℝ → ℝ) (x y : List ℝ) : Except String (List ℝ) :=
  if x.length = y.length then .ok (List.zipWith f x y)
  else if x.length = 1 then .ok (y.map (f (x.headD 0)))
  else if y.length = 1 then .ok (x.map (fun a => f a (y.headD 0)))
  else .error broadcast_err_msg

lemma bc2_error_msg (f : ℝ → ℝ → ℝ) (x y : List ℝ) (e : String)
    (h : bc2 f x y = .error e) : e = broadcast_err_msg := by
  unfold bc2 at h
  split_ifs at h <;> simp_all

/-- Source method `LogGaussianDonut.preferred_period` in the branch where `sf_angle`,
`vox_ecc` and `vox_angle` are all one-dimensional tensors: the source guards
with the Python chained comparison
`if sf_angle.shape != vox_ecc.shape != vox_angle.shape`, which is
`(sf_angle.shape != vox_ecc.shape) and (vox_ecc.shape != vox_angle.shape)`,
and then evaluates the clamped eccentricity-times-orientation formula under
torch broadcasting. -/
def preferred_period_1d (M : LogGaussianDonut) (sf_angle vox_ecc vox_angle : List ℝ) :
    Except String (List ℝ) :=
  if sf_angle.length ≠ vox_ecc.length ∧ vox_ecc.length ≠ vox_angle.length then
    .error shape_err_msg
  else
    match bc2 (fun a b => a - b) sf_angle vox_angle with
    | .error e => .error e
    | .ok rel_sf_angle =>
        match bc2 (fun a r =>
            1 + (M.abs_mode_cardinals * Real.cos (2 * a) +
              M.abs_mode_obliques * Real.cos (4 * a)) +
            (M.rel_mode_cardinals * Real.cos (2 * r) +
              M.rel_mode_obliques * Real.cos (4 * r))) sf_angle rel_sf_angle with
        | .error e => .error e
        | .ok orientation_effect =>
            match bc2 (fun ecc ori => ecc * ori)
                (vox_ecc.map (fun ecc => M.sf_ecc_slope * ecc + M.sf_ecc_intercept))
                orientation_effect with
            | .error e => .error e
            | .ok per => .ok (per.map (fun x => max x (1 / 1000000)))

/-- Counterexample to claim C7: `sf_angle = [0]`, `vox_ecc = [1]`,
`vox_angle = [0, 0, 0]` are all one-dimensional, do not all share one shape,
yet no exception is raised: the chained check passes because the first two
shapes agree, broadcasting succeeds, and a value is returned. -/
theorem preferred_period_1d_counterexample :
    preferred_period_1d M0 [0] [1] [0, 0, 0] = Except.ok [1, 1, 1] := by
  have hmax : max (1 : ℝ) (1 / 1000000) = 1 := max_eq_left (by norm_num)
  simp only [preferred_period_1d, bc2, M0, List.length_cons, List.length_nil]
  norm_num [hmax]

/-- Claim C7 amended: in the all-one-dimensional branch, the usage error is
raised exactly when the length of `sf_angle` differs from that of `vox_ecc` AND
the length of `vox_ecc` differs from that of `vox_angle` (Python chained
comparison); any other
mismatch slips past the check. -/
theorem preferred_period_1d_usage_error_iff (M : LogGaussianDonut)
    (sf_angle vox_ecc vox_angle : List ℝ) :
    preferred_period_1d M sf_angle vox_ecc vox_angle = Except.error shape_err_msg ↔
      (sf_angle.length ≠ vox_ecc.length ∧ vox_ecc.length ≠ vox_angle.length) := by
  by_cases hc : sf_angle.length ≠ vox_ecc.length ∧ vox_ecc.length ≠ vox_angle.length
  · simp [preferred_period_1d, hc]
  · simp only [hc, iff_false]
    unfold preferred_period_1d
    rw [if_neg hc]
    have hmsg : broadcast_err_msg ≠ shape_err_msg := by decide
    cases h1 : bc2 (fun a b => a - b) sf_angle vox_angle with
    | error e =>
        have he := bc2_error_msg _ _ _ _ h1
        subst he
        simp [h1, hmsg]
    | ok rel =>
        cases h2 : bc2 (fun a r =>
            1 + (M.abs_mode_cardinals * Real.cos (2 * a) +
              M.abs_mode_obliques * Real.cos (4 * a)) +
            (M.rel_mode_cardinals * Real.cos (2 * r) +
              M.rel_mode_obliques * Real.cos (4 * r))) sf_angle rel with
        | error e =>
            have he := bc2_error_msg _ _ _ _ h2
            subst he
            simp [h1, h2, hmsg]
        | ok ori =>
            cases h3 : bc2 (fun ecc o => ecc * o)
                (vox_ecc.map (fun ecc => M.sf_ecc_slope * ecc + M.sf_ecc_intercept)) ori with
            | error e =>
                have he := bc2_error_msg _ _ _ _ h3
                subst he
                simp [h1, h2, h3, hmsg]
            | ok per => simp [h1, h2, h3]

/-! ### The cross-validation train/test split in main (model.py lines 703-726) -/

/-- The split performed by `main` when `stimulus_class` is given: the
complement `other_stimulus_class` is computed, and the source assumes the
test set should be smaller than train: when the complement is strictly
larger, `(train, test) = (complement, stimulus_class)`; otherwise
`(train, test) = (stimulus_class, complement)`. -/
def cv_split (all_classes stimulus_class : List ℕ) : List ℕ × List ℕ :=
  let other := all_classes.filter (fun i => !(stimulus_class.contains i))
  if other.length > stimulus_class.length then (other, stimulus_class)
  else (stimulus_class, other)

/-- Counterexample to claim C8: with classes `{0, 1, 2}` and
`stimulus_class = [0, 1]` (a non-empty proper subset), `main` makes `[0, 1]`
the TRAIN set and holds out the complement `[2]`: S is not the held-out test
subset. -/
theorem cv_split_counterexample :
    cv_split [0, 1, 2] [0, 1] = ([0, 1], [2]) ∧
      (cv_split [0, 1, 2] [0, 1]).2 ≠ [0, 1] := by decide

/-- Claim C8 amended: the held-out test subset is `stimulus_class` only when
its complement is strictly larger; otherwise the roles swap and the
complement is held out. In both cases the test subset is never larger than
the train subset. -/
theorem cv_split_roles (all_classes stimulus_class : List ℕ) :
    (stimulus_class.length <
        (all_classes.filter (fun i => !(stimulus_class.contains i))).length →
      cv_split all_classes stimulus_class =
        (all_classes.filter (fun i => !(stimulus_class.contains i)), stimulus_class)) ∧
    ((all_classes.filter (fun i => !(stimulus_class.contains i))).length ≤
        stimulus_class.length →
      cv_split all_classes stimulus_class =
        (stimulus_class, all_classes.filter (fun i => !(stimulus_class.contains i)))) ∧
    (cv_split all_classes stimulus_class).2.length ≤
      (cv_split all_classes stimulus_class).1.length := by
  refine ⟨fun h => ?_, fun h => ?_, ?_⟩
  · unfold cv_split
    rw [if_pos h]
  · unfold cv_split
    rw [if_neg (by omega)]
  · unfold cv_split
    dsimp only
    split_ifs with h
    · simpa using le_of_lt h
    · simpa using h

/-- Witness for C8 amended: holding out `[2]` of `{0, 1, 2}` keeps `[2]` as
the test subset because its complement `[0, 1]` is larger. -/
theorem cv_split_roles_w : cv_split [0, 1, 2] [2] = ([0, 1], [2]) :=
  (cv_split_roles [0, 1, 2] [2]).1 (by decide)
